import Mathlib

/-!
# Verification of the speech-to-speech translation pipeline

Shallow embedding of the orchestration logic of the repository
`speech-translator` (modules 2, 3 and 4) and proofs about it.

External backends (Google STT, Google Translate, gTTS, Edge TTS, moviepy,
ffmpeg, librosa, pydub, pytube) are modelled as explicit oracle inputs:
each embedded function takes the backend outcomes as parameters and
reproduces, branch for branch, the control flow of the Python source.
Machine floats that hold audio durations (seconds) are modelled as
rationals; Python strings are Lean strings.

Layout:
* Python primitive helpers (`pyStrip`, `pyJoin`, `pyRange`);
* module 4 `speech_to_text` chunking and the recognition ladder;
* module 4 / module 2 `convert_to_wav` fallback chains;
* module 4 text-to-speech voice table and fallback;
* module 2 `translate_text` and the batch driver `main`;
* module 4 Flask route handlers (status code and body shape);
* theorems for the individual specification claims.
-/

namespace SpeechTranslator

/-! ## Python string primitives -/

/-- The character-list form of Python's `str.strip()`: drop leading
whitespace, then trailing whitespace. -/
def stripList (l : List Char) : List Char :=
  ((l.dropWhile Char.isWhitespace).reverse.dropWhile Char.isWhitespace).reverse

/-- Python's `str.strip()` on strings. -/
def pyStrip (s : String) : String :=
  ⟨stripList s.data⟩

/-- Python's `sep.join(list)`. -/
def pyJoin (sep : String) : List String → String
  | [] => ""
  | [t] => t
  | t :: ts => t ++ sep ++ pyJoin sep ts

/-- Python's `range(0, stop, step)` for a positive step:
the list `[0, step, 2*step, ...]` of all multiples of `step` below `stop`. -/
def pyRange (stop step : Nat) : List Nat :=
  (List.range ((stop + step - 1) / step)).map (· * step)

/-- Python's `str.lower()` (over the ASCII range the sources use). -/
def pyLower (s : String) : String :=
  ⟨s.data.map Char.toLower⟩

/-- Python's `str.endswith(suffix)`. -/
def pyEndsWith (s suffix : String) : Bool :=
  List.isSuffixOf suffix.data s.data

/-- The ubiquitous `name.lower().endswith(suffix)` test. -/
def lowerEndsWith (name suffix : String) : Bool :=
  pyEndsWith (pyLower name) suffix

/-! ## module4/app.py — `speech_to_text` chunk windows (lines 284-317)

The Python loop is

    offset = 0.0
    while offset < total_duration:
        duration = min(max_chunk_seconds, total_duration - offset)
        ... one recognition call over [offset, offset+duration) ...
        offset += duration

We embed it with an explicit fuel argument (structural recursion);
`sttWindows` supplies a fuel that is proved sufficient whenever
`0 < maxChunk` (lemma `chunkLoop_closed`), so the fuel is an artifact
of the embedding only. -/

/-- One window is `(offset, duration)` in seconds. -/
abbrev Window := ℚ × ℚ

/-- The chunking while-loop of `speech_to_text`. -/
def chunkLoop : Nat → ℚ → ℚ → ℚ → List Window
  | 0, _, _, _ => []
  | fuel + 1, total, maxChunk, offset =>
    if offset < total then
      let d := min maxChunk (total - offset)
      (offset, d) :: chunkLoop fuel total maxChunk (offset + d)
    else []

/-- The recognition windows issued by `speech_to_text`:
`if total_duration and total_duration > max_chunk_seconds` the audio is
chunked, otherwise a single `recognizer.record(source)` call covers the
whole file (window `(0, total)`). -/
def sttWindows (total maxChunk : ℚ) : List Window :=
  if total ≠ 0 ∧ maxChunk < total then
    chunkLoop ((⌈total / maxChunk⌉).toNat + 1) total maxChunk 0
  else
    [(0, total)]

/-! ## module4/app.py — per-window recognition ladder (lines 328-350) -/

/-- Outcome of one `recognizer.recognize_google` call: a returned string
or a raised exception. -/
inductive RecResult where
  | ok (s : String)
  | err
  deriving DecidableEq

/-- A recognition oracle: maps the `language=` argument (`none` = the
auto-detect call with no language argument) to the backend outcome. -/
abbrev Rung := Option String → RecResult

/-- `_recognize_with_fallbacks`: try the preferred language if it is a
truthy string, then auto, then `"en-US"`, then `"hi-IN"`; each rung
returns immediately on any non-exception result (even an empty string). -/
def recognizeWithFallbacks (preferred : Option String) (rung : Rung) : Option String :=
  let step4 : Option String :=
    match rung (some "hi-IN") with
    | .ok s => some s
    | .err => none
  let step3 : Option String :=
    match rung (some "en-US") with
    | .ok s => some s
    | .err => step4
  let step2 : Option String :=
    match rung none with
    | .ok s => some s
    | .err => step3
  match preferred with
  | some p =>
    if p = "" then step2
    else
      match rung (some p) with
      | .ok s => some s
      | .err => step2
  | none => step2

/-- The ladder rung order of `_recognize_with_fallbacks` as a list of
`language=` arguments. -/
def ladderLangs (preferred : Option String) : List (Option String) :=
  (match preferred with
   | some p => if p = "" then [] else [some p]
   | none => []) ++ [none, some "en-US", some "hi-IN"]

/-- First rung whose call does not raise; its result is taken verbatim. -/
def firstNonErrorResult (rung : Rung) : List (Option String) → Option String
  | [] => none
  | l :: ls =>
    match rung l with
    | .ok s => some s
    | .err => firstNonErrorResult rung ls

/-- Modelled from the words of the specification sentence for claim C2:
the first rung whose call neither raises nor returns the empty string. -/
def specFirstNonEmptyNonError (rung : Rung) : List (Option String) → Option String
  | [] => none
  | l :: ls =>
    match rung l with
    | .ok s => if s = "" then specFirstNonEmptyNonError rung ls else some s
    | .err => specFirstNonEmptyNonError rung ls

/-! ## module4/app.py — `speech_to_text` transcript assembly (lines 292-320) -/

/-- `lang_map` of `speech_to_text`. -/
def langMap (s : String) : String :=
  if s = "hi" then "hi-IN" else if s = "en" then "en-US"
  else if s = "mr" then "mr-IN" else if s = "ta" then "ta-IN"
  else if s = "te" then "te-IN" else if s = "kn" then "kn-IN"
  else if s = "gu" then "gu-IN" else if s = "ml" then "ml-IN"
  else if s = "bn" then "bn-IN" else if s = "pa" then "pa-IN"
  else if s = "or" then "or-IN" else if s = "ur" then "ur-PK"
  else s

/-- `preferred_lang = lang_map.get(source_language, source_language)
if source_language else None`. -/
def preferredOf (sourceLanguage : Option String) : Option String :=
  match sourceLanguage with
  | some s => if s = "" then none else some (langMap s)
  | none => none

/-- Python truthiness filter for an optional string
(`if text:` keeps a result only when it is neither `None` nor `""`). -/
def truthy : Option String → Option String
  | some t => if t = "" then none else some t
  | none => none

/-- The `texts` list built by the `speech_to_text` loop: one ladder call
per window, appended only when the result is truthy
(`if text: texts.append(text)`). -/
def sttTexts (windows : List Window) (recognize : Window → Option String) : List String :=
  windows.filterMap fun w => truthy (recognize w)

/-- The kept `(start_offset, text)` pairs, for the ordering invariant. -/
def keptSegments (windows : List Window) (recognize : Window → Option String) :
    List (ℚ × String) :=
  windows.filterMap fun w => (truthy (recognize w)).map fun t => (w.1, t)

/-- `final_text = " ".join(t.strip() for t in texts if t).strip()`,
then `return final_text or None`. -/
def assembleTranscript (texts : List String) : Option String :=
  let final := pyStrip (pyJoin " " ((texts.filter fun t => !(t == "")).map pyStrip))
  if final = "" then none else some final

/-- `speech_to_text(audio_file, source_language, max_chunk_seconds)`,
with the per-window recognition backend as an oracle `rungOf`. -/
def speechToText (total maxChunk : ℚ) (sourceLanguage : Option String)
    (rungOf : Window → Rung) : Option String :=
  assembleTranscript <|
    sttTexts (sttWindows total maxChunk) fun w =>
      recognizeWithFallbacks (preferredOf sourceLanguage) (rungOf w)

/-- Modelled from the words of the specification sentence for claim C3:
"the per-window recognized texts joined in window order with
single-space separators, with empty or failed windows dropped". -/
def specJoinTranscript (windows : List Window) (recognize : Window → Option String) :
    String :=
  pyJoin " " ((windows.filterMap recognize).filter fun t => !(t == ""))

/-! ## module4/app.py — `/youtube_translate` chunk windows (lines 819-847) -/

/-- The `(start, end)` millisecond windows the YouTube route processes:
`total_ms = min(total_ms, 60000)` and then
`for start in range(0, total_ms, 8000): end = min(start + 8000, total_ms)`. -/
def youtubeWindows (totalMs : Nat) : List (Nat × Nat) :=
  let t := min totalMs 60000
  (pyRange t 8000).map fun s => (s, min (s + 8000) t)

/-! ## module4/app.py — `convert_to_wav` fallback chain (lines 103-268)

Each decoding backend is an oracle outcome.  Branches of the source that
fall through with the same observable effect (exception vs. too-small
output file both print and continue without recording a message) are a
single constructor where the source records no message, and keep the
message where the source stores it in `e1`/`e2`. -/

/-- Outcome of one moviepy conversion attempt: a raised exception
(import error or runtime error) or a written file of the given byte
size; success requires `size > 100`. -/
inductive MoviepyOutcome where
  | exc
  | wrote (size : Nat)
  deriving DecidableEq

/-- Outcome of the system-ffmpeg step: the `ffmpeg -version` probe fails
(exception or nonzero return code), the conversion run fails, or a file
of the given size is written; success requires a nonzero size. -/
inductive FfmpegOutcome where
  | unavailable
  | runFail
  | wrote (size : Nat)
  deriving DecidableEq

/-- Outcome of the librosa step (after its internal M4A retry ladder):
success, or an exception whose string becomes `e1`. -/
inductive LibrosaOutcome where
  | ok
  | fail (msg : String)
  deriving DecidableEq

/-- Outcome of the pydub step: the import raises (its string becomes
`e2`), the conversion raises (the source then re-raises
`"Pydub failed: " ++ msg`, which the outer handler stores in `e2`),
or success. -/
inductive PydubOutcome where
  | importFail (msg : String)
  | innerFail (msg : String)
  | ok
  deriving DecidableEq

/-- Backend outcomes for one `convert_to_wav(audio_file)` call. -/
structure ConvEnv where
  fileName : String
  moviepy1 : MoviepyOutcome
  ffmpeg : FfmpegOutcome
  librosa : LibrosaOutcome
  pydub : PydubOutcome
  moviepy2 : MoviepyOutcome
  deriving DecidableEq

/-- Which path `convert_to_wav` returns: the temporary converted WAV
(`tmp`) or the original input path. -/
inductive PathKind where
  | tmp
  | original
  deriving DecidableEq

/-- The Python return value (`tmp` path, original path, or `None`)
together with the final diagnostic printed when everything failed.
`path` is the only information handed to the caller. -/
structure ConvResult where
  path : Option PathKind
  printedError : Option String
  deriving DecidableEq

/-- `audio_file.lower().endswith(('.m4a', '.mp4', '.mov', '.webm',
'.avi', '.mkv', '.flv'))`. -/
def videoLikeExt (name : String) : Bool :=
  [".m4a", ".mp4", ".mov", ".webm", ".avi", ".mkv", ".flv"].any
    fun e => lowerEndsWith name e

/-- Success test for a moviepy attempt:
`os.path.exists(tmp) and os.path.getsize(tmp) > 100`. -/
def moviepySucceeds : MoviepyOutcome → Bool
  | .exc => false
  | .wrote size => size > 100

/-- Success test for the system-ffmpeg step:
`result.returncode == 0 and os.path.exists(tmp) and os.path.getsize(tmp) > 0`. -/
def ffmpegSucceeds : FfmpegOutcome → Bool
  | .unavailable => false
  | .runFail => false
  | .wrote size => size > 0

/-- The `e2` string stored by the pydub handlers on failure. -/
def pydubErrMsg : PydubOutcome → Option String
  | .importFail m => some m
  | .innerFail m => some ("Pydub failed: " ++ m)
  | .ok => none

/-- The final `error_msg` assembled when every method failed
(`if e1: ... if e2: ...` guards empty strings away). -/
def convErrorMsg (e1 e2 : String) : String :=
  "All conversion methods failed. "
    ++ (if e1 = "" then "" else "Librosa: " ++ e1 ++ ". ")
    ++ (if e2 = "" then "" else "Pydub: " ++ e2 ++ ". ")
    ++ "For M4A/WEBM files, ffmpeg may be required. Install ffmpeg or try a different video."

/-- module4 `convert_to_wav`: moviepy (video-like extensions only), then
system ffmpeg, then librosa, then pydub, then a moviepy retry for any
extension; then the `.wav` pass-through; else `None` plus the printed
diagnostic assembled from `e1` (librosa) and `e2` (pydub) only. -/
def convertToWav (env : ConvEnv) : ConvResult :=
  if videoLikeExt env.fileName && moviepySucceeds env.moviepy1 then
    ⟨some .tmp, none⟩
  else if ffmpegSucceeds env.ffmpeg then
    ⟨some .tmp, none⟩
  else
    match env.librosa with
    | .ok => ⟨some .tmp, none⟩
    | .fail e1 =>
      match pydubErrMsg env.pydub with
      | none => ⟨some .tmp, none⟩
      | some e2 =>
        if moviepySucceeds env.moviepy2 then
          ⟨some .tmp, none⟩
        else if lowerEndsWith env.fileName ".wav" then
          ⟨some .original, none⟩
        else
          ⟨none, some (convErrorMsg e1 e2)⟩

/-- Every decoding backend of one `convert_to_wav` call fails. -/
def allBackendsFail (env : ConvEnv) : Prop :=
  moviepySucceeds env.moviepy1 = false ∧
  ffmpegSucceeds env.ffmpeg = false ∧
  env.librosa ≠ .ok ∧
  env.pydub ≠ .ok ∧
  moviepySucceeds env.moviepy2 = false

instance (env : ConvEnv) : Decidable (allBackendsFail env) := by
  unfold allBackendsFail; infer_instance

/-! ## module2_batch_translator.py — `convert_to_wav` (lines 49-83) -/

/-- Backend outcomes for one module2 `convert_to_wav(src)` call. -/
structure Conv2Env where
  fileName : String
  pydubOk : Bool
  librosaAvailable : Bool
  librosaOk : Bool
  deriving DecidableEq

/-- `src.lower().endswith(('.mp3', '.m4a', '.flac', '.ogg'))`. -/
def librosaFallbackExt (name : String) : Bool :=
  [".mp3", ".m4a", ".flac", ".ogg"].any fun e => lowerEndsWith name e

/-- module2 `convert_to_wav`: an input whose name ends in `.wav` is
returned as-is immediately; otherwise pydub, then (if available and the
extension matches) librosa; else `None`. -/
def module2ConvertToWav (env : Conv2Env) : Option PathKind :=
  if lowerEndsWith env.fileName ".wav" then some .original
  else if env.pydubOk then some .tmp
  else if env.librosaAvailable && librosaFallbackExt env.fileName && env.librosaOk then
    some .tmp
  else none

/-- Some decoding backend of the module2 chain can decode the file. -/
def conv2DecodesCleanly (env : Conv2Env) : Bool :=
  env.pydubOk || (env.librosaAvailable && env.librosaOk)

/-! ## module4/app.py — text-to-speech (lines 424-534) and
module3_ott_realtime.py — `text_to_speech` (lines 207-235) -/

/-- `TARGET_LANGS` keys (identical in modules 2, 3 and 4). -/
def targetLangs : List String :=
  ["en", "hi", "pa", "mr", "kn", "te", "ta", "gu", "ml", "bn", "or", "ur"]

/-- The `voice_map` of `get_edge_tts_voice` as `(male, female)` pairs. -/
def edgeVoiceMap (lang : String) : Option (String × String) :=
  if lang = "en" then some ("en-US-GuyNeural", "en-US-AriaNeural")
  else if lang = "hi" then some ("hi-IN-MadhurNeural", "hi-IN-SwaraNeural")
  else if lang = "mr" then some ("mr-IN-ManoharNeural", "mr-IN-AarohiNeural")
  else if lang = "ta" then some ("ta-IN-ValluvarNeural", "ta-IN-PallaviNeural")
  else if lang = "te" then some ("te-IN-MohanNeural", "te-IN-ShrutiNeural")
  else if lang = "kn" then some ("kn-IN-GaganNeural", "kn-IN-SapnaNeural")
  else if lang = "gu" then some ("gu-IN-NiranjanNeural", "gu-IN-DhwaniNeural")
  else if lang = "ml" then some ("ml-IN-MidhunNeural", "ml-IN-SobhanaNeural")
  else if lang = "bn" then some ("bn-IN-BashkarNeural", "bn-IN-TanishaaNeural")
  else if lang = "ur" then some ("ur-PK-AsadNeural", "ur-PK-UzmaNeural")
  else if lang = "pa" then some ("pa-IN-GurpreetNeural", "pa-IN-GurpreetNeural")
  else if lang = "or" then some ("or-IN-LekhaNeural", "or-IN-LekhaNeural")
  else none

/-- `get_edge_tts_voice(lang_code, gender)`:
`lang_voices.get(gender, lang_voices.get('male'))` — the female voice
for gender `"female"`, the male voice for `"male"` and for any other
selector string. -/
def getEdgeTtsVoice (edgeTtsAvailable : Bool) (langCode gender : String) :
    Option String :=
  if ¬edgeTtsAvailable then none
  else
    match edgeVoiceMap langCode with
    | some (m, f) => some (if gender = "female" then f else m)
    | none => none

/-- Backend outcomes for one module4 `text_to_speech` call.
`edgeSave`: `none` = `asyncio.run` raised, `some n` = a file of `n`
bytes was saved (success requires `n > 0`). -/
structure TtsEnv where
  edgeTtsAvailable : Bool
  edgeSave : Option Nat
  gttsOk : Bool
  deriving DecidableEq

/-- Observable outcome of a `text_to_speech` call: which backend wrote
the output (and with which voice / gTTS language code), or failure. -/
inductive TtsOutcome where
  | edge (voice : String)
  | gtts (langUsed : String)
  | failed
  deriving DecidableEq

/-- The gTTS language code actually passed:
Punjabi and Odia are redirected to Hindi. -/
def gttsLangUsed (langCode : String) : String :=
  if langCode = "pa" ∨ langCode = "or" then "hi" else langCode

/-- The gTTS fallback block of module4 `text_to_speech`. -/
def gttsFallback (env : TtsEnv) (langCode : String) : TtsOutcome :=
  if env.gttsOk then .gtts (gttsLangUsed langCode) else .failed

/-- module4 `text_to_speech(text, lang_code, output_path, gender)`:
Edge TTS first when available and a voice is mapped (success requires a
nonempty saved file), else the gTTS fallback, which ignores `gender`. -/
def textToSpeech (env : TtsEnv) (langCode gender : String) : TtsOutcome :=
  if env.edgeTtsAvailable then
    match getEdgeTtsVoice env.edgeTtsAvailable langCode gender with
    | some voice =>
      match env.edgeSave with
      | some n => if n > 0 then .edge voice else gttsFallback env langCode
      | none => gttsFallback env langCode
    | none => gttsFallback env langCode
  else gttsFallback env langCode

/-- module3 `text_to_speech`: gTTS only, with the same Punjabi/Odia →
Hindi substitution (two separate `elif` arms in the source). -/
def module3TextToSpeech (gttsOk : Bool) (langCode : String) : TtsOutcome :=
  if gttsOk then
    if langCode = "pa" then .gtts "hi"
    else if langCode = "or" then .gtts "hi"
    else .gtts langCode
  else .failed

/-! ## module2_batch_translator.py — `translate_text` (lines 103-111)
and the `main` driver (lines 124-211) -/

/-- Return value of module2 `translate_text` plus what it printed. -/
structure TranslateOut where
  result : Option String
  log : List String
  deriving DecidableEq

/-- module2 `translate_text(text, lang)`: the backend call either
returns a translation or raises with a message `e`; on failure the
function prints a warning naming the language and returns `None`. -/
def module2TranslateText (backend : Except String String) (lang : String) :
    TranslateOut :=
  match backend with
  | .ok t => ⟨some t, []⟩
  | .error e => ⟨none, ["⚠️ Translation to " ++ lang ++ " failed: " ++ e]⟩

/-- The per-file language loop of module2 `main`: every code in
`TARGET_LANGS` is attempted; a result enters the `translations` dict
only when it passes the `if translated:` truthiness test (so `None`
and the empty string are both dropped; failures print `❌` and the
loop continues). -/
def processLanguages (backend : String → Except String String) :
    List (String × String) :=
  targetLangs.filterMap fun code =>
    (truthy (module2TranslateText (backend code) code).result).map fun t => (code, t)

/-- Per-file backend outcomes for one iteration of the module2 file loop. -/
structure FileEnv where
  convOk : Bool
  stt : Option String
  translations : String → Except String String

/-- One row of the CSV log written by module2 `main`. -/
structure LogEntry where
  recognizedText : String
  translations : List (String × String)

/-- One iteration of the module2 file loop: `continue` (producing no log
entry) when conversion fails or the recognized text fails the
`if not text:` truthiness test (`None` or empty), else the language
loop. -/
def processFile (f : FileEnv) : Option LogEntry :=
  if ¬f.convOk then none
  else
    match truthy f.stt with
    | none => none
    | some text => some ⟨text, processLanguages f.translations⟩

/-- `MAX_FILES = 45` truncation of the discovered audio file list. -/
def selectFiles {α : Type} (files : List α) : List α :=
  if files.length > 45 then files.take 45 else files

/-- The module2 `main` run: truncate the file list, process each file in
order, collect the log entries. -/
def mainRun (files : List FileEnv) : List LogEntry :=
  (selectFiles files).filterMap processFile

/-! ## module4/app.py — Flask route handlers (status codes and bodies) -/

/-- The JSON body shapes the routes return. -/
inductive JsonBody where
  | err (msg : String)
  | uploadSuccess (originalText translatedText : String)
  | translateSuccess (translatedText : String) (audioUrl : Option String)
  | chunkList (chunks : List (Nat × String × String × Bool))
  deriving DecidableEq

/-- An HTTP response: status code and JSON body. -/
structure HttpRes where
  status : Nat
  body : JsonBody
  deriving DecidableEq

/-- `ALLOWED_EXTENSIONS`. -/
def allowedExtensions : List String :=
  ["mp3", "wav", "m4a", "flac", "ogg", "mp4", "avi", "mov", "mkv"]

/-- `filename.rsplit('.', 1)[1]` when a dot is present: the characters
after the last dot. -/
def extAfterLastDot (s : String) : String :=
  ⟨((s.data.reverse).takeWhile fun c => !(c = '.')).reverse⟩

/-- `allowed_file(filename)`:
`'.' in filename and filename.rsplit('.', 1)[1].lower() in ALLOWED_EXTENSIONS`. -/
def allowedFile (filename : String) : Bool :=
  (filename.data.any fun c => c = '.') &&
    allowedExtensions.contains (pyLower (extAfterLastDot filename))

/-- Request and backend outcomes for one `/upload` (or `/mic_record`)
request.  `convOk` abstracts `convert_to_wav` returning a path, `stt`
the `speech_to_text` result, `translation` the `translate_text` result,
`ttsOk` the `text_to_speech` boolean. -/
structure UploadEnv where
  filePresent : Bool
  filename : String
  convOk : Bool
  stt : Option String
  translation : Option String
  ttsOk : Bool
  deriving DecidableEq

/-- The `/upload` handler `upload_file` (lines 543-619).  The
disallowed-extension message appends
`', '.join(ALLOWED_EXTENSIONS)`; since `ALLOWED_EXTENSIONS` is a
Python set with unspecified iteration order, the model joins the
extensions in the order of the source's set literal. -/
def uploadRoute (env : UploadEnv) : HttpRes :=
  if ¬env.filePresent then
    ⟨400, .err "No file provided (expected form field 'file' or 'audio')"⟩
  else if env.filename = "" then
    ⟨400, .err "No file selected"⟩
  else if ¬allowedFile env.filename then
    ⟨400, .err ("File type not allowed. Allowed: " ++ pyJoin ", " allowedExtensions)⟩
  else if ¬env.convOk then
    ⟨500, .err "Failed to convert audio file"⟩
  else
    match env.stt with
    | none =>
      ⟨400, .err "Could not recognize speech. Please ensure audio contains clear speech."⟩
    | some originalText =>
      match env.translation with
      | none => ⟨500, .err "Translation failed"⟩
      | some translatedText =>
        if ¬env.ttsOk then ⟨500, .err "TTS generation failed"⟩
        else ⟨200, .uploadSuccess originalText translatedText⟩

/-- The `/mic_record` handler (lines 665-718); same failure statuses as
`/upload` without the extension check. -/
def micRecordRoute (env : UploadEnv) : HttpRes :=
  if ¬env.filePresent then ⟨400, .err "No audio provided"⟩
  else if env.filename = "" then ⟨400, .err "No file selected"⟩
  else if ¬env.convOk then ⟨500, .err "Failed to convert audio file"⟩
  else
    match env.stt with
    | none => ⟨400, .err "Could not recognize speech."⟩
    | some originalText =>
      match env.translation with
      | none => ⟨500, .err "Translation failed"⟩
      | some translatedText =>
        if ¬env.ttsOk then ⟨500, .err "TTS generation failed"⟩
        else ⟨200, .uploadSuccess originalText translatedText⟩

/-- Request and backend outcomes for one `/translate_text` request.
`lang` is the requested target language and `mtime` the modification
time `int(os.path.getmtime(tts_path))` of the written audio file. -/
structure TranslateTextEnv where
  text : String
  lang : String
  translation : Option String
  ttsOk : Bool
  mtime : Nat
  deriving DecidableEq

/-- The `/translate_text` handler `translate_text_only` (lines 622-657):
on TTS success the audio URL is
`f"/static/translated_live_{target_lang}.mp3?t={mtime}"`; a TTS failure
still returns status 200 with
`{"success": True, ..., "audio_url": None}`. -/
def translateTextRoute (env : TranslateTextEnv) : HttpRes :=
  if pyStrip env.text = "" then ⟨400, .err "No text provided"⟩
  else
    match env.translation with
    | none => ⟨500, .err "Translation failed"⟩
    | some translatedText =>
      if env.ttsOk then
        ⟨200, .translateSuccess translatedText
          (some ("/static/translated_live_" ++ env.lang ++ ".mp3?t=" ++ toString env.mtime))⟩
      else ⟨200, .translateSuccess translatedText none⟩

/-- Request and backend outcomes for one `/youtube_translate` request. -/
structure YoutubeEnv where
  url : String
  downloadOk : Bool
  convOk : Bool
  totalMs : Nat
  chunkText : Nat → String
  chunkTranslation : String → Option String
  chunkTtsOk : Nat → Bool

/-- The `/youtube_translate` handler (lines 793-864): windows from
`youtubeWindows`; a chunk enters the result list only when its
transcription is nonempty; translation and TTS failures inside a chunk
do not change the 200 status (`translated or ""`, `audio: None`). -/
def youtubeRoute (env : YoutubeEnv) : HttpRes :=
  if pyStrip env.url = "" then
    ⟨400, .err "Please provide a valid YouTube URL in the 'url' field."⟩
  else if ¬env.downloadOk then
    ⟨500, .err "YouTube download failed"⟩
  else if ¬env.convOk then
    ⟨500, .err "Failed to prepare audio from YouTube"⟩
  else
    ⟨200, .chunkList <|
      (youtubeWindows env.totalMs).filterMap fun w =>
        let text := env.chunkText w.1
        if text = "" then none
        else
          let translated := (env.chunkTranslation text).getD ""
          some (w.1 / 1000, text, translated, env.chunkTtsOk w.1)⟩

/-! ## Concrete oracle instances used by counterexamples and witnesses -/

/-- A recognition oracle whose auto-detect rung returns the empty
string and whose `en-US` rung returns `"hello"`. -/
def exRungC2 : Rung := fun l =>
  if l = none then .ok ""
  else if l = some "en-US" then .ok "hello"
  else .err

/-- A per-window oracle for a 100-second file: window 0 recognizes
`"a"`, window 45 recognizes the whitespace-only string `" "`, window 90
recognizes `"b"` (each on the auto-detect rung). -/
def exRungOfC3 : Window → Rung := fun w l =>
  if l = none then
    if w.1 = 0 then .ok "a" else if w.1 = 45 then .ok " " else .ok "b"
  else .err

/-- A per-window oracle for a 100-second file whose three windows
recognize the clean texts `"a"`, `"b"` and `"c"`. -/
def exRungC3cleanOf : Window → Rung := fun w l =>
  if l = none then
    if w.1 = 0 then .ok "a" else if w.1 = 45 then .ok "b" else .ok "c"
  else .err

/-- A failing conversion environment (all backends raise). -/
def envFailA : ConvEnv :=
  ⟨"song.mp3", .exc, .runFail, .fail "librosa boom A", .innerFail "pydub boom A", .exc⟩

/-- A second failing conversion environment with a different
librosa error chain. -/
def envFailB : ConvEnv :=
  ⟨"song.mp3", .exc, .runFail, .fail "librosa boom B", .innerFail "pydub boom B", .exc⟩

/-- A `.wav`-named input that no module2 backend can decode. -/
def wavBadEnv2 : Conv2Env := ⟨"corrupt.wav", false, true, false⟩

/-- A `.wav`-named input that no module4 backend can decode. -/
def wavBadEnv4 : ConvEnv :=
  ⟨"corrupt.wav", .exc, .runFail, .fail "not a wav", .innerFail "not a wav", .exc⟩

/-- A file-loop environment with a failing translation backend. -/
def exFileEnv : FileEnv := ⟨true, some "hello", fun _ => .error "unreachable"⟩

/-! # Theorems -/

/-! ## Python string lemmas (claim C3 machinery) -/

theorem length_dropWhile_le {α : Type} (p : α → Bool) :
    ∀ l : List α, (l.dropWhile p).length ≤ l.length := by
  intro l
  induction l with
  | nil => simp
  | cons c r ih =>
    rw [List.dropWhile_cons]
    split
    · exact le_trans ih (Nat.le_succ _)
    · exact le_refl _

theorem dropWhile_eq_self_of_length {α : Type} (p : α → Bool) (l : List α)
    (h : (l.dropWhile p).length = l.length) : l.dropWhile p = l :=
  (List.dropWhile_suffix p).eq_of_length h

/-- A fixed point of `stripList` is a fixed point of both of its
one-sided trims. -/
theorem stripList_parts {l : List Char} (h : stripList l = l) :
    l.dropWhile Char.isWhitespace = l ∧
    l.reverse.dropWhile Char.isWhitespace = l.reverse := by
  have hlen : (stripList l).length = l.length := by rw [h]
  unfold stripList at hlen
  rw [List.length_reverse] at hlen
  have h1 : (l.dropWhile Char.isWhitespace).length ≤ l.length :=
    length_dropWhile_le Char.isWhitespace l
  have h2 : ((l.dropWhile Char.isWhitespace).reverse.dropWhile Char.isWhitespace).length
      ≤ (l.dropWhile Char.isWhitespace).reverse.length :=
    length_dropWhile_le Char.isWhitespace _
  rw [List.length_reverse] at h2
  have ha : (l.dropWhile Char.isWhitespace).length = l.length := by omega
  have hfix : l.dropWhile Char.isWhitespace = l :=
    dropWhile_eq_self_of_length Char.isWhitespace l ha
  refine ⟨hfix, ?_⟩
  rw [hfix] at hlen
  have hrev : l.reverse.length = l.length := List.length_reverse l
  exact dropWhile_eq_self_of_length Char.isWhitespace l.reverse (by omega)

theorem head_false_of_dropWhile_eq_self {p : Char → Bool} {c : Char} {r : List Char}
    (h : (c :: r).dropWhile p = c :: r) : p c = false := by
  rw [List.dropWhile_cons] at h
  by_cases hc : p c = true
  · rw [if_pos hc] at h
    have hle := length_dropWhile_le p r
    have hl := congrArg List.length h
    simp at hl
    omega
  · simpa using hc

/-- A non-empty strip-fixed string starts with a non-whitespace
character. -/
theorem clean_head {t : String} (hne : t ≠ "") (hfix : pyStrip t = t) :
    ∃ c r, t.data = c :: r ∧ Char.isWhitespace c = false := by
  have hdata : stripList t.data = t.data := congrArg String.data hfix
  have hparts := stripList_parts hdata
  rcases hd : t.data with _ | ⟨c, r⟩
  · exact absurd (String.ext hd) hne
  · rw [hd] at hparts
    exact ⟨c, r, rfl, head_false_of_dropWhile_eq_self hparts.1⟩

/-- A non-empty strip-fixed string ends with a non-whitespace
character. -/
theorem clean_revhead {t : String} (hne : t ≠ "") (hfix : pyStrip t = t) :
    ∃ c r, t.data.reverse = c :: r ∧ Char.isWhitespace c = false := by
  have hdata : stripList t.data = t.data := congrArg String.data hfix
  have hparts := stripList_parts hdata
  rcases hd : t.data.reverse with _ | ⟨c, r⟩
  · have : t.data = [] := by
      have := congrArg List.reverse hd
      simpa using this
    exact absurd (String.ext this) hne
  · rw [hd] at hparts
    exact ⟨c, r, rfl, head_false_of_dropWhile_eq_self hparts.2⟩

/-- A space-join of non-empty strip-fixed strings starts and ends with
non-whitespace characters. -/
theorem pyJoin_clean_ends :
    ∀ ts : List String, ts ≠ [] → (∀ t ∈ ts, t ≠ "" ∧ pyStrip t = t) →
      (∃ c r, (pyJoin " " ts).data = c :: r ∧ Char.isWhitespace c = false) ∧
      (∃ c r, (pyJoin " " ts).data.reverse = c :: r ∧ Char.isWhitespace c = false) := by
  intro ts
  induction ts with
  | nil => intro hne _; exact absurd rfl hne
  | cons t ts ih =>
    intro _ hc
    rcases ts with _ | ⟨t2, rest⟩
    · have hct := hc t (by simp)
      exact ⟨clean_head hct.1 hct.2, clean_revhead hct.1 hct.2⟩
    · have hct := hc t (by simp)
      have ihr := ih (by simp) fun u hu => hc u (by simp [hu])
      have hjoin : pyJoin " " (t :: t2 :: rest) = t ++ " " ++ pyJoin " " (t2 :: rest) := rfl
      constructor
      · obtain ⟨c, r, hd, hw⟩ := clean_head hct.1 hct.2
        refine ⟨c, r ++ (" ".data ++ (pyJoin " " (t2 :: rest)).data), ?_, hw⟩
        rw [hjoin]
        simp [String.data_append, hd]
      · obtain ⟨c, r, hd, hw⟩ := ihr.2
        refine ⟨c, r ++ (" ".data.reverse ++ t.data.reverse), ?_, hw⟩
        rw [hjoin]
        simp [String.data_append, List.reverse_append, hd]

/-- Stripping is a no-op on a space-join of non-empty strip-fixed
strings. -/
theorem pyStrip_pyJoin_clean (ts : List String) (hne : ts ≠ [])
    (hc : ∀ t ∈ ts, t ≠ "" ∧ pyStrip t = t) :
    pyStrip (pyJoin " " ts) = pyJoin " " ts := by
  obtain ⟨⟨c1, r1, hd1, hw1⟩, ⟨c2, r2, hd2, hw2⟩⟩ := pyJoin_clean_ends ts hne hc
  apply String.ext
  show stripList (pyJoin " " ts).data = (pyJoin " " ts).data
  unfold stripList
  rw [hd1, List.dropWhile_cons, if_neg (by simp [hw1])]
  rw [show (c1 :: r1).reverse = c2 :: r2 from by rw [← hd1]; exact hd2]
  rw [List.dropWhile_cons, if_neg (by simp [hw2])]
  rw [show (c2 :: r2).reverse = c1 :: r1 from by rw [← hd2, List.reverse_reverse, hd1]]

/-- A space-join of a non-empty list of non-empty strings is
non-empty. -/
theorem pyJoin_ne_empty (ts : List String) (hne : ts ≠ [])
    (hc : ∀ t ∈ ts, t ≠ "" ∧ pyStrip t = t) :
    pyJoin " " ts ≠ "" := by
  obtain ⟨⟨c1, r1, hd1, _⟩, _⟩ := pyJoin_clean_ends ts hne hc
  intro h
  rw [h] at hd1
  cases hd1

/-! ## Closed form of the chunking loop (claim C1 machinery) -/

/-- With positive `maxChunk` and sufficient fuel, the chunking loop
started at `offset` produces one window per `maxChunk`-sized slice of
the remaining duration: window `i` starts at `offset + i * maxChunk`
and lasts `min maxChunk (remaining)`. -/
theorem chunkLoop_closed (maxChunk : ℚ) (hmax : 0 < maxChunk) :
    ∀ (fuel : Nat) (total offset : ℚ),
      (⌈(total - offset) / maxChunk⌉).toNat < fuel →
      chunkLoop fuel total maxChunk offset =
        (List.range (⌈(total - offset) / maxChunk⌉).toNat).map
          fun i : ℕ => (offset + (i : ℚ) * maxChunk,
                    min maxChunk (total - offset - (i : ℚ) * maxChunk)) := by
  intro fuel
  induction fuel with
  | zero =>
    intro total offset h
    exact absurd h (Nat.not_lt_zero _)
  | succ m ih =>
    intro total offset h
    by_cases hlt : offset < total
    case neg =>
      have hnp : (total - offset) / maxChunk ≤ 0 :=
        div_nonpos_iff.mpr (Or.inr ⟨by linarith, le_of_lt hmax⟩)
      have hc0 : ⌈(total - offset) / maxChunk⌉ ≤ 0 := by
        rw [Int.ceil_le]
        exact_mod_cast hnp
      have ht0 : (⌈(total - offset) / maxChunk⌉).toNat = 0 := by omega
      simp only [chunkLoop, if_neg hlt, ht0, List.range_zero, List.map_nil]
    case pos =>
      have hrem : 0 < total - offset := sub_pos.mpr hlt
      have hceilpos : 0 < ⌈(total - offset) / maxChunk⌉ := by
        rw [Int.lt_ceil]
        push_cast
        exact div_pos hrem hmax
      simp only [chunkLoop, if_pos hlt]
      by_cases hsmall : total - offset ≤ maxChunk
      · have hmin : min maxChunk (total - offset) = total - offset := min_eq_right hsmall
        have hceil1 : ⌈(total - offset) / maxChunk⌉ = 1 := by
          have hle : ⌈(total - offset) / maxChunk⌉ ≤ 1 := by
            rw [Int.ceil_le]
            push_cast
            rw [div_le_one hmax]
            exact hsmall
          omega
        have harg : total - (offset + min maxChunk (total - offset)) = 0 := by
          rw [hmin]; ring
        have htail : chunkLoop m total maxChunk (offset + min maxChunk (total - offset)) = [] := by
          have hfuel : (⌈(total - (offset + min maxChunk (total - offset))) / maxChunk⌉).toNat
              < m := by
            rw [harg, zero_div, Int.ceil_zero]
            omega
          rw [ih total (offset + min maxChunk (total - offset)) hfuel, harg, zero_div,
            Int.ceil_zero]
          rfl
        rw [htail, hceil1]
        show [(offset, min maxChunk (total - offset))] = _
        have hr1 : List.range 1 = [0] := rfl
        simp [hr1, hmin]
      · push_neg at hsmall
        have hmin : min maxChunk (total - offset) = maxChunk := min_eq_left (le_of_lt hsmall)
        have hceil2 : 2 ≤ ⌈(total - offset) / maxChunk⌉ := by
          have h1lt : 1 < ⌈(total - offset) / maxChunk⌉ := by
            rw [Int.lt_ceil]
            push_cast
            rw [lt_div_iff₀ hmax]
            linarith
          omega
        have hargdiv : (total - (offset + maxChunk)) / maxChunk
            = (total - offset) / maxChunk - 1 := by
          field_simp
          ring
        have hceilnext : ⌈(total - (offset + maxChunk)) / maxChunk⌉
            = ⌈(total - offset) / maxChunk⌉ - 1 := by
          rw [hargdiv]
          exact_mod_cast Int.ceil_sub_int ((total - offset) / maxChunk) 1
        have hfuel : (⌈(total - (offset + maxChunk)) / maxChunk⌉).toNat < m := by
          rw [hceilnext]; omega
        have hihres := ih total (offset + maxChunk) hfuel
        rw [hceilnext] at hihres
        rw [hmin, hihres]
        rw [show (⌈(total - offset) / maxChunk⌉).toNat
            = (⌈(total - offset) / maxChunk⌉ - 1).toNat + 1 from by omega]
        rw [List.range_succ_eq_map, List.map_cons, List.map_map]
        congr 1
        · norm_num [hmin]
        · apply List.map_congr_left
          intro i hi
          simp only [Function.comp_apply, Nat.succ_eq_add_one, Prod.mk.injEq]
          constructor
          · push_cast
            ring
          · push_cast
            congr 1
            ring

/-- The single-call branch of `speech_to_text`: one window over the
whole audio when the duration test fails. -/
theorem sttWindows_single (total maxChunk : ℚ)
    (h : ¬(total ≠ 0 ∧ maxChunk < total)) :
    sttWindows total maxChunk = [(0, total)] := by
  rw [sttWindows, if_neg h]

/-- The chunked branch of `speech_to_text` in closed form. -/
theorem sttWindows_chunked (total maxChunk : ℚ) (hmax : 0 < maxChunk)
    (h : maxChunk < total) :
    sttWindows total maxChunk =
      (List.range (⌈total / maxChunk⌉).toNat).map
        fun i : ℕ => ((i : ℚ) * maxChunk, min maxChunk (total - (i : ℚ) * maxChunk)) := by
  have ht : total ≠ 0 := ne_of_gt (hmax.trans h)
  rw [sttWindows, if_pos ⟨ht, h⟩]
  have hcl := chunkLoop_closed maxChunk hmax ((⌈total / maxChunk⌉).toNat + 1) total 0
    (by rw [sub_zero]; exact Nat.lt_succ_self _)
  rw [sub_zero] at hcl
  rw [hcl]
  apply List.map_congr_left
  intro i hi
  norm_num

/-- C1: for a determinable total duration at most `max_chunk_seconds`
(including the indeterminable `0.0` case), `speech_to_text` issues
exactly one recognition call over the whole audio; for duration
strictly greater than `max_chunk_seconds` it issues exactly
`⌈total / maxChunk⌉` calls whose windows start at offsets
`0, maxChunk, 2*maxChunk, ...` (window `i` covers
`[i*maxChunk, i*maxChunk + min maxChunk (total - i*maxChunk))`),
each non-final window lasting exactly `maxChunk` and the final window
ending exactly at `total` — consecutive, non-overlapping, in order. -/
theorem stt_chunking_C1 (total maxChunk : ℚ) (hmax : 0 < maxChunk) :
    (total ≤ maxChunk → sttWindows total maxChunk = [(0, total)]) ∧
    (maxChunk < total →
      (sttWindows total maxChunk).length = (⌈total / maxChunk⌉).toNat ∧
      (∀ (i : Nat) (hi : i < (sttWindows total maxChunk).length),
        (sttWindows total maxChunk).get ⟨i, hi⟩ =
          ((i : ℚ) * maxChunk, min maxChunk (total - (i : ℚ) * maxChunk))) ∧
      (∀ i : Nat, i + 1 < (⌈total / maxChunk⌉).toNat →
        min maxChunk (total - (i : ℚ) * maxChunk) = maxChunk) ∧
      (∀ i : Nat, i + 1 = (⌈total / maxChunk⌉).toNat →
        (i : ℚ) * maxChunk + min maxChunk (total - (i : ℚ) * maxChunk) = total)) := by
  constructor
  · intro hle
    exact sttWindows_single total maxChunk fun hne => absurd hne.2 (not_lt.mpr hle)
  · intro hgt
    have hcl := sttWindows_chunked total maxChunk hmax hgt
    have hceilpos : 0 < ⌈total / maxChunk⌉ := by
      rw [Int.lt_ceil]
      push_cast
      exact div_pos (hmax.trans hgt) hmax
    refine ⟨?_, ?_, ?_, ?_⟩
    · rw [hcl]
      simp
    · intro i hi
      rw [List.get_eq_getElem, List.getElem_of_eq hcl hi]
      simp
    · intro i hi
      have hlt : ((i : ℤ) + 1) < ⌈total / maxChunk⌉ := by omega
      rw [Int.lt_ceil] at hlt
      push_cast at hlt
      rw [lt_div_iff₀ hmax] at hlt
      have : maxChunk ≤ total - (i : ℚ) * maxChunk := by nlinarith
      exact min_eq_left this
    · intro i hi
      have hle : total / maxChunk ≤ ((⌈total / maxChunk⌉ : ℤ) : ℚ) := Int.le_ceil _
      have hcast : ((⌈total / maxChunk⌉ : ℤ) : ℚ) = ((i : ℚ) + 1) := by
        have : (⌈total / maxChunk⌉ : ℤ) = (i : ℤ) + 1 := by omega
        rw [this]
        push_cast
        ring
      rw [hcast, div_le_iff₀ hmax] at hle
      have hrle : total - (i : ℚ) * maxChunk ≤ maxChunk := by nlinarith
      rw [min_eq_right hrle]
      ring

/-- The recognition windows of the specification's 100-second /
45-second scenario, computed in closed form. -/
theorem sttWindows_100_45 : sttWindows 100 45 = [(0, 45), (45, 45), (90, 10)] := by
  have hc : (⌈(100 : ℚ) / 45⌉) = 3 := by
    rw [Int.ceil_eq_iff]
    constructor <;> norm_num
  rw [sttWindows_chunked 100 45 (by norm_num) (by norm_num), hc]
  have h3 : (3 : ℤ).toNat = 3 := rfl
  rw [h3]
  norm_num [List.range_succ, min_def]

/-- Witness for C1: a 100-second file with `max_chunk_seconds = 45`
gets exactly three recognition windows, `[0,45)`, `[45,90)`, `[90,100)`,
and a 30-second file gets a single whole-audio window. -/
theorem stt_chunking_C1_witness :
    (sttWindows 100 45).length = (⌈(100 : ℚ) / 45⌉).toNat ∧
    sttWindows 100 45 = [(0, 45), (45, 45), (90, 10)] ∧
    sttWindows 30 45 = [(0, 30)] :=
  ⟨((stt_chunking_C1 100 45 (by norm_num)).2 (by norm_num)).1,
   sttWindows_100_45,
   (stt_chunking_C1 30 45 (by norm_num)).1 (by norm_num)⟩

/-- C9: the `/youtube_translate` route clamps the total duration used
for chunking to 60000 milliseconds before generating the 8-second
windows, so for audio longer than 60 seconds the processed windows are
exactly those of a 60-second file: eight windows whose start offsets
are all strictly below 60000 ms and whose end offsets never exceed
60000 ms.  The route body (`youtubeRoute`) builds its chunk list by
iterating exactly these windows. -/
theorem youtube_clamp_C9 (totalMs : Nat) (h : totalMs > 60000) :
    youtubeWindows totalMs = youtubeWindows 60000 ∧
    (∀ w ∈ youtubeWindows totalMs, w.1 < 60000 ∧ w.2 ≤ 60000) ∧
    (youtubeWindows totalMs).length = 8 := by
  have h1 : min totalMs 60000 = 60000 := Nat.min_eq_right (le_of_lt h)
  have h2 : youtubeWindows totalMs = youtubeWindows 60000 := by
    unfold youtubeWindows
    rw [h1]
    norm_num
  refine ⟨h2, ?_, ?_⟩
  · rw [h2]; decide
  · rw [h2]; decide

/-- Witness for C9 at a 100-second video. -/
theorem youtube_clamp_C9_witness :
    youtubeWindows 100000 = youtubeWindows 60000 ∧
    (∀ w ∈ youtubeWindows 100000, w.1 < 60000 ∧ w.2 ≤ 60000) ∧
    (youtubeWindows 100000).length = 8 :=
  youtube_clamp_C9 100000 (by norm_num)

/-- C10: the module2 batch driver truncates the discovered audio file
list to the first `MAX_FILES = 45` entries whenever more were found, so
the run processes exactly the first 45 files and any file beyond the
45th contributes nothing to the run (appending extra files after a
45-file prefix leaves the run's output unchanged). -/
theorem batch_limit_C10 (files : List FileEnv) (h : files.length > 45) :
    selectFiles files = files.take 45 ∧
    mainRun files = (files.take 45).filterMap processFile ∧
    (∀ base extra : List FileEnv, base.length = 45 →
      mainRun (base ++ extra) = mainRun base) := by
  refine ⟨if_pos h, ?_, ?_⟩
  · unfold mainRun selectFiles
    rw [if_pos h]
  · intro base extra hbase
    unfold mainRun selectFiles
    rcases extra with _ | ⟨e, es⟩
    · simp
    · have hlen : (base ++ e :: es).length > 45 := by
        simp [hbase]
      rw [if_pos hlen, if_neg (by simp [hbase]), ← hbase, List.take_left]

/-- Witness for C10: 46 discovered files are truncated to 45. -/
theorem batch_limit_C10_witness :
    selectFiles (List.replicate 46 exFileEnv) = (List.replicate 46 exFileEnv).take 45 :=
  (batch_limit_C10 (List.replicate 46 exFileEnv) (by simp)).1

/-- C6: for every language code in the fixed 12-entry set and every
gender selector string, the Edge TTS voice table has a direct mapping
(the female voice for `"female"`, otherwise the male voice); the gTTS
fallback always has a code to use — Punjabi and Odia are redirected to
the Hindi voice, every other code passes through — and when the neural
backend is unavailable or its save raises, `text_to_speech` falls back
to gTTS, whose result ignores the gender selector.  The module3
synthesizer performs the same Punjabi/Odia → Hindi substitution. -/
theorem voice_mapping_C6 (lang gender : String) (h : lang ∈ targetLangs) :
    (getEdgeTtsVoice true lang gender).isSome = true ∧
    (lang = "pa" ∨ lang = "or" → gttsLangUsed lang = "hi") ∧
    (∀ env : TtsEnv, env.gttsOk = true →
      gttsFallback env lang = .gtts (gttsLangUsed lang)) ∧
    (∀ edgeSave : Option Nat,
      textToSpeech ⟨false, edgeSave, true⟩ lang gender = .gtts (gttsLangUsed lang)) ∧
    textToSpeech ⟨true, none, true⟩ lang gender = .gtts (gttsLangUsed lang) ∧
    module3TextToSpeech true lang = .gtts (gttsLangUsed lang) := by
  have hmap : (edgeVoiceMap lang).isSome = true := by
    fin_cases h <;> rfl
  refine ⟨?_, ?_, ?_, ?_, ?_, ?_⟩
  · rcases hv : edgeVoiceMap lang with _ | ⟨m, f⟩
    · rw [hv] at hmap; simp at hmap
    · simp [getEdgeTtsVoice, hv]
  · intro hor
    unfold gttsLangUsed
    rw [if_pos hor]
  · intro env he
    simp [gttsFallback, he]
  · intro edgeSave
    simp [textToSpeech, gttsFallback]
  · rcases hv : edgeVoiceMap lang with _ | ⟨m, f⟩
    · rw [hv] at hmap; simp at hmap
    · simp [textToSpeech, getEdgeTtsVoice, hv, gttsFallback]
  · fin_cases h <;> rfl

/-- Witness for C6 at the Punjabi/"female" corner: a direct Edge voice
mapping exists and module3 redirects Punjabi to the Hindi gTTS voice. -/
theorem voice_mapping_C6_witness :
    (getEdgeTtsVoice true "pa" "female").isSome = true ∧
    module3TextToSpeech true "pa" = .gtts (gttsLangUsed "pa") :=
  ⟨(voice_mapping_C6 "pa" "female" (by decide)).1,
   (voice_mapping_C6 "pa" "female" (by decide)).2.2.2.2.2⟩

/-- Counterexample for C7: when the translation backend raises, module2
`translate_text` returns the bare `None` — the value returned for
target `"fr"` is identical to the one returned for target `"de"`, so no
target-language code is attached to the returned failure value. -/
theorem translate_failure_C7_counterexample :
    (module2TranslateText (.error "backend unreachable") "fr").result = none ∧
    (module2TranslateText (.error "backend unreachable") "de").result = none ∧
    (module2TranslateText (.error "backend unreachable") "fr").result =
      (module2TranslateText (.error "backend unreachable") "de").result :=
  ⟨rfl, rfl, rfl⟩

/-- C7 as amended: on backend failure module2 `translate_text` returns
`None` and the target-language code appears only in the printed warning
line; the batch driver nonetheless continues — every language whose
backend call returns a non-empty translation enters the translations of
that file regardless of other languages failing, an entry appears for a
language exactly when its backend returned that non-empty text (the
`if translated:` truthiness check also drops empty-string
translations), and every file whose processing yields a log entry keeps
it regardless of other files. -/
theorem translate_failure_C7_amended (e lang : String)
    (backend : String → Except String String) :
    module2TranslateText (.error e) lang =
      ⟨none, ["⚠️ Translation to " ++ lang ++ " failed: " ++ e]⟩ ∧
    (∀ code ∈ targetLangs, ∀ t, backend code = .ok t → t ≠ "" →
      (code, t) ∈ processLanguages backend) ∧
    (∀ code t, (code, t) ∈ processLanguages backend →
      backend code = .ok t ∧ t ≠ "") ∧
    (∀ files : List FileEnv, ∀ f ∈ selectFiles files, ∀ entry,
      processFile f = some entry → entry ∈ mainRun files) := by
  refine ⟨rfl, ?_, ?_, ?_⟩
  · intro code hcode t ht htne
    exact List.mem_filterMap.mpr
      ⟨code, hcode, by simp [module2TranslateText, ht, truthy, htne]⟩
  · intro code t hmem
    obtain ⟨c, _, hmap⟩ := List.mem_filterMap.mp hmem
    obtain ⟨u, hu, hcu⟩ := Option.map_eq_some'.mp hmap
    injection hcu with hc1 hc2
    rw [← hc1, ← hc2]
    cases hb : backend c with
    | error m =>
      rw [hb] at hu
      simp [module2TranslateText, truthy] at hu
    | ok s =>
      rw [hb] at hu
      by_cases hs : s = ""
      · simp [module2TranslateText, truthy, hs] at hu
      · simp [module2TranslateText, truthy, hs] at hu
        subst hu
        exact ⟨rfl, hs⟩
  · intro files f hf entry hentry
    exact List.mem_filterMap.mpr ⟨f, hf, hentry⟩

/-- Witness for C7's amended statement: a failing `"fr"` call returns
`None` with the warning printed, while a succeeding `"hi"` call in the
same batch still lands in the translations. -/
theorem translate_failure_C7_witness :
    module2TranslateText (.error "timeout") "fr" =
      ⟨none, ["⚠️ Translation to " ++ "fr" ++ " failed: " ++ "timeout"]⟩ ∧
    ("hi", "नमस्ते") ∈ processLanguages
      (fun code => if code = "hi" then .ok "नमस्ते" else .error "timeout") := by
  refine ⟨(translate_failure_C7_amended "timeout" "fr"
      (fun code => if code = "hi" then .ok "नमस्ते" else .error "timeout")).1, ?_⟩
  exact (translate_failure_C7_amended "timeout" "fr"
      (fun code => if code = "hi" then .ok "नमस्ते" else .error "timeout")).2.1
    "hi" (by decide) "नमस्ते" rfl (by decide)

/-- Counterexample for C2: when the auto-detect rung returns the empty
string and the later `en-US` rung would return `"hello"`, the code
chooses the empty string — the first non-error result, not the first
non-empty non-error result demanded by the claim. -/
theorem recognition_ladder_C2_counterexample :
    recognizeWithFallbacks none exRungC2 = some "" ∧
    specFirstNonEmptyNonError exRungC2 (ladderLangs none) = some "hello" ∧
    recognizeWithFallbacks none exRungC2 ≠
      specFirstNonEmptyNonError exRungC2 (ladderLangs none) :=
  ⟨by decide, by decide, by decide⟩

/-- C2 as amended: recognition tries the rungs in the fixed order
(caller's hint when provided and truthy, auto-detect, `en-US`,
`hi-IN`) and the FIRST NON-ERROR result is chosen for the window, even
when it is empty; a window whose chosen result is `None` or empty
contributes nothing to the `texts` list — it is dropped and the
remaining windows are processed unchanged, so the run is not aborted. -/
theorem recognition_ladder_C2_amended (preferred : Option String) (rung : Rung) :
    recognizeWithFallbacks preferred rung = firstNonErrorResult rung (ladderLangs preferred) ∧
    (∀ (ws1 ws2 : List Window) (w : Window) (recognize : Window → Option String),
      truthy (recognize w) = none →
      sttTexts (ws1 ++ w :: ws2) recognize = sttTexts (ws1 ++ ws2) recognize) := by
  constructor
  · rcases preferred with _ | p
    · simp only [recognizeWithFallbacks, ladderLangs, List.nil_append]
      cases h0 : rung none <;> cases h3 : rung (some "en-US") <;>
        cases h4 : rung (some "hi-IN") <;>
          simp [firstNonErrorResult, h0, h3, h4]
    · by_cases hp : p = ""
      · simp only [recognizeWithFallbacks, ladderLangs, hp, if_pos, List.nil_append]
        cases h0 : rung none <;> cases h3 : rung (some "en-US") <;>
          cases h4 : rung (some "hi-IN") <;>
            simp [firstNonErrorResult, h0, h3, h4]
      · simp only [recognizeWithFallbacks, ladderLangs, hp, if_neg, List.cons_append,
          List.nil_append]
        cases hpr : rung (some p) <;> cases h0 : rung none <;>
          cases h3 : rung (some "en-US") <;> cases h4 : rung (some "hi-IN") <;>
            simp [firstNonErrorResult, hpr, h0, h3, h4]
  · intro ws1 ws2 w recognize hw
    simp [sttTexts, List.filterMap_append, List.filterMap_cons, hw]

/-- Witness for C2's amended statement: with a `"hi-IN"` hint the
ladder equals the first-non-error scan, and a window whose ladder
yields nothing is dropped without affecting the other windows. -/
theorem recognition_ladder_C2_witness :
    recognizeWithFallbacks (some "hi-IN") exRungC2 =
      firstNonErrorResult exRungC2 (ladderLangs (some "hi-IN")) ∧
    sttTexts ([((0 : ℚ), (45 : ℚ))] ++ ((45 : ℚ), (45 : ℚ)) :: [((90 : ℚ), (10 : ℚ))])
        (fun w => if w.1 = 45 then none else some "x") =
      sttTexts ([((0 : ℚ), (45 : ℚ))] ++ [((90 : ℚ), (10 : ℚ))])
        (fun w => if w.1 = 45 then none else some "x") :=
  ⟨(recognition_ladder_C2_amended (some "hi-IN") exRungC2).1,
   (recognition_ladder_C2_amended (some "hi-IN") exRungC2).2
     [((0 : ℚ), (45 : ℚ))] [((90 : ℚ), (10 : ℚ))] ((45 : ℚ), (45 : ℚ))
     (fun w => if w.1 = 45 then none else some "x") (by norm_num [truthy])⟩

/-- Counterexample for C4: two total-failure runs with different
attempted-backend error chains hand the caller the identical bare
`None` — the value returned to the caller carries no error chain at
all (the diagnostic text is only printed). -/
theorem conversion_diagnostics_C4_counterexample :
    (convertToWav envFailA).path = none ∧
    (convertToWav envFailB).path = none ∧
    envFailA.librosa ≠ envFailB.librosa ∧
    (convertToWav envFailA).path = (convertToWav envFailB).path :=
  ⟨by decide, by decide, by decide, by decide⟩

/-- C4 as amended: when every decoding backend fails and the input is
not named `.wav`, module4 `convert_to_wav` PRINTS a diagnostic built
from the librosa and pydub error messages only (the moviepy and ffmpeg
messages are not recorded) and RETURNS `None` — a single generic
failure value — to the caller. -/
theorem conversion_diagnostics_C4_amended (name e1 m2 : String)
    (mp1 mp2 : MoviepyOutcome) (ff : FfmpegOutcome)
    (h1 : moviepySucceeds mp1 = false) (h2 : ffmpegSucceeds ff = false)
    (h3 : moviepySucceeds mp2 = false)
    (hwav : lowerEndsWith name ".wav" = false) :
    convertToWav ⟨name, mp1, ff, .fail e1, .innerFail m2, mp2⟩ =
      ⟨none, some (convErrorMsg e1 ("Pydub failed: " ++ m2))⟩ := by
  simp [convertToWav, h1, h2, h3, hwav, pydubErrMsg]

/-- Witness for C4's amended statement at a concrete failing run. -/
theorem conversion_diagnostics_C4_witness :
    convertToWav ⟨"song.mp3", .exc, .runFail, .fail "librosa boom A",
        .innerFail "pydub boom A", .exc⟩ =
      ⟨none, some (convErrorMsg "librosa boom A" ("Pydub failed: " ++ "pydub boom A"))⟩ :=
  conversion_diagnostics_C4_amended "song.mp3" "librosa boom A" "pydub boom A"
    .exc .exc .runFail rfl rfl rfl (by decide)

/-- Counterexample for C5: a `.wav`-named file that NO backend can
decode is still passed through unconverted — module2 returns it
immediately without any decode attempt, and module4 returns it as the
last resort precisely when every decode attempt failed.  In both
modules the filename extension, not a successful decode, grants the
pass-through. -/
theorem wav_passthrough_C5_counterexample :
    module2ConvertToWav wavBadEnv2 = some .original ∧
    conv2DecodesCleanly wavBadEnv2 = false ∧
    (convertToWav wavBadEnv4).path = some .original ∧
    allBackendsFail wavBadEnv4 :=
  ⟨by decide, by decide, by decide, by decide⟩

/-- C5 as amended: module2 `convert_to_wav` returns any `.wav`-named
input unconverted immediately, with no verification whatsoever;
module4 `convert_to_wav` first attempts the conversion backends and
returns the original `.wav` path exactly in the case where every
backend failed — likewise without verifying that the file decodes. -/
theorem wav_passthrough_C5_amended :
    (∀ env : Conv2Env, lowerEndsWith env.fileName ".wav" = true →
      module2ConvertToWav env = some .original) ∧
    (∀ env : ConvEnv, lowerEndsWith env.fileName ".wav" = true →
      allBackendsFail env → (convertToWav env).path = some .original) := by
  constructor
  · intro env h
    simp [module2ConvertToWav, h]
  · intro env h hfail
    obtain ⟨f1, f2, f3, f4, f5⟩ := hfail
    rcases hl : env.librosa with _ | e1
    · exact absurd hl f3
    · rcases hp : env.pydub with m | m | _
      · simp [convertToWav, f1, f2, f5, hl, hp, pydubErrMsg, h]
      · simp [convertToWav, f1, f2, f5, hl, hp, pydubErrMsg, h]
      · exact absurd hp f4

/-- Witness for C5's amended statement at the concrete corrupt
`.wav` inputs. -/
theorem wav_passthrough_C5_witness :
    module2ConvertToWav wavBadEnv2 = some .original ∧
    (convertToWav wavBadEnv4).path = some .original :=
  ⟨wav_passthrough_C5_amended.1 wavBadEnv2 (by decide),
   wav_passthrough_C5_amended.2 wavBadEnv4 (by decide) (by decide)⟩

/-- Counterexample for C8: a `/translate_text` request whose
translation succeeds but whose TTS backend fails receives HTTP 200
with `{"success": True, ..., "audio_url": None}` — a 2xx success
response for a request that ended in a backend failure. -/
theorem http_status_C8_counterexample :
    translateTextRoute ⟨"hello", "hi", some "bonjour", false, 0⟩ =
      ⟨200, .translateSuccess "bonjour" none⟩ := by
  decide

/-- C8 as amended: `/upload` and `/mic_record` map each failure class
to a fixed status, branch for branch — 400 with a JSON error body for
validation and recognition failures, 500 with a JSON error body for
conversion, translation and TTS backend failures — and answer 200
exactly when every stage succeeded; but `/translate_text` answers 200
(with `audio_url: None`) when TTS fails after a successful translation,
and `/youtube_translate` answers 200 whenever download and conversion
succeed, regardless of per-chunk translation or TTS failures. -/
theorem http_status_C8_amended :
    (∀ env : UploadEnv,
      (env.filePresent = false →
        uploadRoute env =
          ⟨400, .err "No file provided (expected form field 'file' or 'audio')"⟩) ∧
      (env.filePresent = true → env.filename = "" →
        uploadRoute env = ⟨400, .err "No file selected"⟩) ∧
      (env.filePresent = true → env.filename ≠ "" → allowedFile env.filename = false →
        uploadRoute env =
          ⟨400, .err ("File type not allowed. Allowed: " ++ pyJoin ", " allowedExtensions)⟩) ∧
      (env.filePresent = true → env.filename ≠ "" → allowedFile env.filename = true →
        env.convOk = false →
        uploadRoute env = ⟨500, .err "Failed to convert audio file"⟩) ∧
      (env.filePresent = true → env.filename ≠ "" → allowedFile env.filename = true →
        env.convOk = true → env.stt = none →
        uploadRoute env =
          ⟨400, .err "Could not recognize speech. Please ensure audio contains clear speech."⟩) ∧
      (∀ o, env.filePresent = true → env.filename ≠ "" → allowedFile env.filename = true →
        env.convOk = true → env.stt = some o → env.translation = none →
        uploadRoute env = ⟨500, .err "Translation failed"⟩) ∧
      (∀ o tr, env.filePresent = true → env.filename ≠ "" → allowedFile env.filename = true →
        env.convOk = true → env.stt = some o → env.translation = some tr →
        env.ttsOk = false →
        uploadRoute env = ⟨500, .err "TTS generation failed"⟩) ∧
      (∀ o tr, env.filePresent = true → env.filename ≠ "" → allowedFile env.filename = true →
        env.convOk = true → env.stt = some o → env.translation = some tr →
        env.ttsOk = true →
        uploadRoute env = ⟨200, .uploadSuccess o tr⟩) ∧
      ((uploadRoute env).status = 200 →
        env.convOk = true ∧ env.stt.isSome = true ∧
        env.translation.isSome = true ∧ env.ttsOk = true)) ∧
    (∀ env : UploadEnv,
      (env.filePresent = false → micRecordRoute env = ⟨400, .err "No audio provided"⟩) ∧
      (env.filePresent = true → env.filename = "" →
        micRecordRoute env = ⟨400, .err "No file selected"⟩) ∧
      (env.filePresent = true → env.filename ≠ "" → env.convOk = false →
        micRecordRoute env = ⟨500, .err "Failed to convert audio file"⟩) ∧
      (env.filePresent = true → env.filename ≠ "" → env.convOk = true → env.stt = none →
        micRecordRoute env = ⟨400, .err "Could not recognize speech."⟩) ∧
      (∀ o, env.filePresent = true → env.filename ≠ "" → env.convOk = true →
        env.stt = some o → env.translation = none →
        micRecordRoute env = ⟨500, .err "Translation failed"⟩) ∧
      (∀ o tr, env.filePresent = true → env.filename ≠ "" → env.convOk = true →
        env.stt = some o → env.translation = some tr → env.ttsOk = false →
        micRecordRoute env = ⟨500, .err "TTS generation failed"⟩) ∧
      (∀ o tr, env.filePresent = true → env.filename ≠ "" → env.convOk = true →
        env.stt = some o → env.translation = some tr → env.ttsOk = true →
        micRecordRoute env = ⟨200, .uploadSuccess o tr⟩) ∧
      ((micRecordRoute env).status = 200 →
        env.convOk = true ∧ env.stt.isSome = true ∧
        env.translation.isSome = true ∧ env.ttsOk = true)) ∧
    (∀ env : TranslateTextEnv,
      (pyStrip env.text = "" → translateTextRoute env = ⟨400, .err "No text provided"⟩) ∧
      (pyStrip env.text ≠ "" → env.translation = none →
        translateTextRoute env = ⟨500, .err "Translation failed"⟩) ∧
      (∀ t, pyStrip env.text ≠ "" → env.translation = some t → env.ttsOk = false →
        translateTextRoute env = ⟨200, .translateSuccess t none⟩) ∧
      (∀ t, pyStrip env.text ≠ "" → env.translation = some t → env.ttsOk = true →
        translateTextRoute env =
          ⟨200, .translateSuccess t
            (some ("/static/translated_live_" ++ env.lang ++ ".mp3?t="
              ++ toString env.mtime))⟩)) ∧
    (∀ env : YoutubeEnv, pyStrip env.url ≠ "" → env.downloadOk = true →
      env.convOk = true → (youtubeRoute env).status = 200) := by
  refine ⟨?_, ?_, ?_, ?_⟩
  · intro env
    refine ⟨?_, ?_, ?_, ?_, ?_, ?_, ?_, ?_, ?_⟩
    · intro h1
      simp [uploadRoute, h1]
    · intro h1 h2
      simp [uploadRoute, h1, h2]
    · intro h1 h2 h3
      simp [uploadRoute, h1, h2, h3]
    · intro h1 h2 h3 h4
      simp [uploadRoute, h1, h2, h3, h4]
    · intro h1 h2 h3 h4 h5
      simp [uploadRoute, h1, h2, h3, h4, h5]
    · intro o h1 h2 h3 h4 h5 h6
      simp [uploadRoute, h1, h2, h3, h4, h5, h6]
    · intro o tr h1 h2 h3 h4 h5 h6 h7
      simp [uploadRoute, h1, h2, h3, h4, h5, h6, h7]
    · intro o tr h1 h2 h3 h4 h5 h6 h7
      simp [uploadRoute, h1, h2, h3, h4, h5, h6, h7]
    · obtain ⟨fp, fn, cv, stt, tr, tts⟩ := env
      cases fp <;> cases cv <;> cases tts <;> rcases stt with _ | s <;>
        rcases tr with _ | t <;> by_cases hfn : fn = "" <;>
          by_cases haf : allowedFile fn <;> simp [uploadRoute, hfn, haf]
  · intro env
    refine ⟨?_, ?_, ?_, ?_, ?_, ?_, ?_, ?_⟩
    · intro h1
      simp [micRecordRoute, h1]
    · intro h1 h2
      simp [micRecordRoute, h1, h2]
    · intro h1 h2 h3
      simp [micRecordRoute, h1, h2, h3]
    · intro h1 h2 h3 h4
      simp [micRecordRoute, h1, h2, h3, h4]
    · intro o h1 h2 h3 h4 h5
      simp [micRecordRoute, h1, h2, h3, h4, h5]
    · intro o tr h1 h2 h3 h4 h5 h6
      simp [micRecordRoute, h1, h2, h3, h4, h5, h6]
    · intro o tr h1 h2 h3 h4 h5 h6
      simp [micRecordRoute, h1, h2, h3, h4, h5, h6]
    · obtain ⟨fp, fn, cv, stt, tr, tts⟩ := env
      cases fp <;> cases cv <;> cases tts <;> rcases stt with _ | s <;>
        rcases tr with _ | t <;> by_cases hfn : fn = "" <;>
          simp [micRecordRoute, hfn]
  · intro env
    refine ⟨?_, ?_, ?_, ?_⟩
    · intro h1
      simp [translateTextRoute, h1]
    · intro h1 h2
      simp [translateTextRoute, h1, h2]
    · intro t h1 h2 h3
      simp [translateTextRoute, h1, h2, h3]
    · intro t h1 h2 h3
      simp [translateTextRoute, h1, h2, h3]
  · intro env h1 h2 h3
    simp [youtubeRoute, h1, h2, h3]

/-! ## Transcript assembly lemmas (claim C3) -/

/-- Every text kept by the `speech_to_text` loop is non-empty. -/
theorem sttTexts_ne_empty (windows : List Window) (recognize : Window → Option String) :
    ∀ t ∈ sttTexts windows recognize, t ≠ "" := by
  intro t ht
  obtain ⟨w, _, htr⟩ := List.mem_filterMap.mp ht
  cases hrec : recognize w with
  | none => rw [hrec] at htr; cases htr
  | some s =>
    rw [hrec] at htr
    by_cases hs : s = ""
    · rw [show truthy (some s) = none from by simp [truthy, hs]] at htr
      cases htr
    · rw [show truthy (some s) = some s from by simp [truthy, hs]] at htr
      cases htr
      exact hs

/-- Filtering the empty strings out of the raw ladder results is the
same as the truthiness filter of the `speech_to_text` loop. -/
theorem sttTexts_eq_filter (windows : List Window) (recognize : Window → Option String) :
    (windows.filterMap recognize).filter (fun t => !(t == "")) = sttTexts windows recognize := by
  unfold sttTexts
  induction windows with
  | nil => rfl
  | cons w ws ih =>
    rw [List.filterMap_cons, List.filterMap_cons]
    cases hrec : recognize w with
    | none => simpa using ih
    | some s =>
      by_cases hs : s = ""
      · subst hs
        simpa [truthy, List.filter_cons] using ih
      · simpa [truthy, hs, List.filter_cons] using ih

/-- The second components of the kept segments are exactly the kept
texts. -/
theorem keptSegments_snd (windows : List Window) (recognize : Window → Option String) :
    (keptSegments windows recognize).map Prod.snd = sttTexts windows recognize := by
  unfold keptSegments sttTexts
  rw [List.map_filterMap]
  simp [Option.map_map, Function.comp]

/-- The recognition windows have strictly increasing start offsets. -/
theorem sttWindows_ordered (total maxChunk : ℚ) (hmax : 0 < maxChunk) :
    (sttWindows total maxChunk).Pairwise fun a b => a.1 < b.1 := by
  by_cases h : maxChunk < total
  · rw [sttWindows_chunked total maxChunk hmax h]
    refine List.Pairwise.map _ ?_ (List.pairwise_lt_range _)
    intro i j hij
    exact mul_lt_mul_of_pos_right (by exact_mod_cast hij) hmax
  · rw [sttWindows, if_neg fun hc => h hc.2]
    simp

/-- The kept segments inherit the strict start-offset ordering of the
windows. -/
theorem keptSegments_ordered (windows : List Window)
    (hw : windows.Pairwise fun a b => a.1 < b.1) (recognize : Window → Option String) :
    (keptSegments windows recognize).Pairwise fun a b => a.1 < b.1 := by
  unfold keptSegments
  refine List.Pairwise.filterMap _ ?_ hw
  intro a a' r b hb b' hb'
  obtain ⟨t, _, hbt⟩ := Option.map_eq_some'.mp hb
  obtain ⟨t', _, hbt'⟩ := Option.map_eq_some'.mp hb'
  rw [← hbt, ← hbt']
  exact r

/-- When every kept text is strip-fixed, the transcript is exactly the
space-join of the kept texts. -/
theorem assembleTranscript_clean (texts : List String) (hne : texts ≠ [])
    (hnempty : ∀ t ∈ texts, t ≠ "") (hclean : ∀ t ∈ texts, pyStrip t = t) :
    assembleTranscript texts = some (pyJoin " " texts) := by
  unfold assembleTranscript
  have hcomb : ∀ t ∈ texts, t ≠ "" ∧ pyStrip t = t :=
    fun t ht => ⟨hnempty t ht, hclean t ht⟩
  have hfilter : texts.filter (fun t => !(t == "")) = texts :=
    List.filter_eq_self.mpr fun t ht => by simp [hnempty t ht]
  have hmap : texts.map pyStrip = texts := by
    have h1 : texts.map pyStrip = texts.map id := List.map_congr_left hclean
    rwa [List.map_id] at h1
  rw [hfilter, hmap, pyStrip_pyJoin_clean texts hne hcomb,
    if_neg (pyJoin_ne_empty texts hne hcomb)]

/-- Counterexample for C3: on a 100-second file whose middle window
recognizes the whitespace-only text `" "`, `speech_to_text` returns
`"a  b"` — a double space, not single-space separators — while the
claim's join of the per-window texts (empty/failed windows dropped)
gives `"a   b"`. -/
theorem transcript_join_C3_counterexample :
    speechToText 100 45 none exRungOfC3 = some "a  b" ∧
    specJoinTranscript (sttWindows 100 45)
      (fun w => recognizeWithFallbacks (preferredOf none) (exRungOfC3 w)) = "a   b" ∧
    some "a  b" ≠ (some "a   b" : Option String) := by
  refine ⟨?_, ?_, by decide⟩
  · rw [speechToText, sttWindows_100_45]
    decide
  · rw [specJoinTranscript, sttWindows_100_45]
    decide

/-- C3 as amended: the kept `(start_offset, text)` segments of a
`speech_to_text` run are in strictly increasing start-offset order (so
no text ever precedes the text of an earlier window), the transcript is
assembled from exactly those texts, and — provided every kept text is
strip-fixed (no leading, trailing or lone whitespace) — the transcript
is precisely the claim's single-space join of the per-window texts with
empty and failed windows dropped.  (A whitespace-only recognized text
breaks the single-space property: see the counterexample.) -/
theorem transcript_assembly_C3_amended (total maxChunk : ℚ) (hmax : 0 < maxChunk)
    (sourceLanguage : Option String) (rungOf : Window → Rung) :
    (keptSegments (sttWindows total maxChunk)
        (fun w => recognizeWithFallbacks (preferredOf sourceLanguage) (rungOf w))).Pairwise
      (fun a b => a.1 < b.1) ∧
    speechToText total maxChunk sourceLanguage rungOf =
      assembleTranscript
        ((keptSegments (sttWindows total maxChunk)
          (fun w => recognizeWithFallbacks (preferredOf sourceLanguage) (rungOf w))).map
            Prod.snd) ∧
    (∀ (windows : List Window) (recognize : Window → Option String),
      sttTexts windows recognize ≠ [] →
      (∀ t ∈ sttTexts windows recognize, pyStrip t = t) →
      assembleTranscript (sttTexts windows recognize) =
        some (pyJoin " " (sttTexts windows recognize)) ∧
      specJoinTranscript windows recognize =
        pyJoin " " (sttTexts windows recognize)) := by
  refine ⟨?_, ?_, ?_⟩
  · exact keptSegments_ordered _ (sttWindows_ordered total maxChunk hmax) _
  · rw [keptSegments_snd]
    rfl
  · intro windows recognize hne hclean
    constructor
    · exact assembleTranscript_clean _ hne (sttTexts_ne_empty windows recognize) hclean
    · rw [specJoinTranscript, sttTexts_eq_filter]

/-- Witness for C3's amended statement at the 100-second scenario with
clean per-window texts `"a"`, `"b"`, `"c"`. -/
theorem transcript_assembly_C3_witness :
    (keptSegments (sttWindows 100 45)
        (fun w => recognizeWithFallbacks (preferredOf none) (exRungC3cleanOf w))).Pairwise
      (fun a b => a.1 < b.1) ∧
    assembleTranscript (sttTexts (sttWindows 100 45)
        (fun w => recognizeWithFallbacks (preferredOf none) (exRungC3cleanOf w))) =
      some (pyJoin " " (sttTexts (sttWindows 100 45)
        (fun w => recognizeWithFallbacks (preferredOf none) (exRungC3cleanOf w)))) :=
  ⟨(transcript_assembly_C3_amended 100 45 (by norm_num) none exRungC3cleanOf).1,
   ((transcript_assembly_C3_amended 100 45 (by norm_num) none exRungC3cleanOf).2.2
     (sttWindows 100 45)
     (fun w => recognizeWithFallbacks (preferredOf none) (exRungC3cleanOf w))
     (by rw [sttWindows_100_45]; decide)
     (by rw [sttWindows_100_45]; decide)).1⟩

/-- Witness for C8's amended statement: a missing-file `/upload`
request gets 400 with an error body, a failed translation on
`/translate_text` gets 500, and a failed TTS there still gets 200. -/
theorem http_status_C8_witness :
    uploadRoute ⟨false, "a.wav", true, some "x", some "y", true⟩ =
      ⟨400, .err "No file provided (expected form field 'file' or 'audio')"⟩ ∧
    translateTextRoute ⟨"hi", "fr", none, true, 0⟩ = ⟨500, .err "Translation failed"⟩ ∧
    translateTextRoute ⟨"hi", "fr", some "bonjour", false, 0⟩ =
      ⟨200, .translateSuccess "bonjour" none⟩ :=
  ⟨(http_status_C8_amended.1 ⟨false, "a.wav", true, some "x", some "y", true⟩).1 rfl,
   (http_status_C8_amended.2.2.1 ⟨"hi", "fr", none, true, 0⟩).2.1 (by decide) rfl,
   (http_status_C8_amended.2.2.1 ⟨"hi", "fr", some "bonjour", false, 0⟩).2.2.1 "bonjour"
     (by decide) rfl rfl⟩

end SpeechTranslator
